import Mathlib

/-!
Verification development for the mcp-store example repository: a stdio
MCP tool server (`cmd/server/main.go`, the canonical variant built into
`bin/product-server`), a legacy server variant (`server/server.go`),
and a client/orchestrator (`cmd/client/main.go`) that chains tool
results across invocations of a single user turn.

Go values decoded by `encoding/json` into `interface{}` are modelled by
the inductive `JVal`; Go strings are modelled by `GoStr`, which records
whether a string was produced by `json.Marshal` of a structured value
(constructor `marshal`) or is a plain literal that is not itself valid
JSON (constructor `lit`).  Go `float64` arithmetic is modelled by exact
rational arithmetic over `ℚ`; every number appearing in the handlers
and in the scenarios below is exactly representable in binary floating
point, so no rounding behaviour is lost in the translation.
-/

namespace MCPStore

mutual
/-- A JSON value as decoded by Go `encoding/json` into `interface{}`:
strings, numbers (`float64`, modelled as `ℚ`), booleans, null, arrays
and objects (`map[string]interface{}`, modelled as an association
list).  Objects are only ever observed through key lookups, so the
list order carries no information (Go maps are unordered and
`json.Marshal` emits keys alphabetically; the embedding keeps the
source's construction order). -/
inductive JVal where
  | str : GoStr → JVal
  | num : ℚ → JVal
  | bool : Bool → JVal
  | null : JVal
  | arr : List JVal → JVal
  | obj : List (String × JVal) → JVal

/-- A Go string.  `lit s` is a plain string (program literals such as
product ids, and the handlers' validation messages — none of which is
itself valid JSON); `marshal v` is the string produced by
`json.Marshal` of the structured value `v`.  `json.Unmarshal` succeeds
exactly on `marshal` strings and recovers `v`; this models the
repository's nested JSON-in-text encoding. -/
inductive GoStr where
  | lit : String → GoStr
  | marshal : JVal → GoStr
end

/-- Go string comparison `id == s` between a catalog product id (a Go
string literal in the source) and an argument string.  Strings that
the program receives from a JSON decode are modelled as `lit`; the
`marshal` constructor only ever models strings the program itself
produced with `json.Marshal`, and those never flow into an id
comparison, hence the `false` arm. -/
def idBeq (id : String) (s : GoStr) : Bool :=
  match s with
  | GoStr.lit s' => decide (id = s')
  | GoStr.marshal _ => false

/-- Lookup in a Go map modelled as an association list (`m[k]`,
returning the value when the key is present). -/
def jlookup (kvs : List (String × JVal)) (k : String) : Option JVal :=
  match kvs with
  | [] => none
  | (k', v) :: rest => if k' = k then some v else jlookup rest k

/-- Go map assignment `m[k] = v`: replace the binding if the key is
present, otherwise add it. -/
def jupsert (kvs : List (String × JVal)) (k : String) (v : JVal) :
    List (String × JVal) :=
  match kvs with
  | [] => [(k, v)]
  | (k', v') :: rest =>
      if k' = k then (k, v) :: rest else (k', v') :: jupsert rest k v

/-- `mcp.CallToolResult`: the error flag and the text payloads of the
content items (each `mcp.NewTextContent` argument, a Go string). -/
structure CallToolResult where
  isError : Bool
  content : List GoStr

/-- Handler results: Go handlers return `(*mcp.CallToolResult, error)`;
a Lean `Except.error` is a non-nil Go `error` return. -/
abbrev HandlerResult := Except String CallToolResult

/-- Handler arguments: `req.GetArguments()`, `none` when the request
carried no arguments object (Go `nil` map). -/
abbrev HandlerArgs := Option (List (String × JVal))

/-- `Product` from `cmd/server/main.go` (identical in
`server/server.go`). -/
structure Product where
  id : String
  name : String
  price : ℚ

/-- `defaultProducts`: the fixed catalog. -/
def defaultProducts : List Product :=
  [⟨"1", "Laptop", 1000⟩, ⟨"2", "Smartphone", 500⟩, ⟨"3", "Tablet", 300⟩]

/-- Go `int(f)` on a `float64`: truncation toward zero, as a map
`ℚ → ℤ` (`tdiv` is truncating division). -/
def goInt (q : ℚ) : ℤ := q.num.tdiv q.den

/-- Renders a rational with two decimal places, modelling the `%.2f`
format verb of the handlers' human-readable messages (all amounts the
program formats are exact multiples of a cent, so rounding mode is
immaterial). -/
def fmtMoney (q : ℚ) : String :=
  let n : ℤ := round (q * 100)
  let sign := if n < 0 then "-" else ""
  let m := n.natAbs
  sign ++ toString (m / 100) ++ "." ++
    (if m % 100 < 10 then "0" else "") ++ toString (m % 100)

/-- Renders a rational with no decimal places (`%.0f`). -/
def fmtWhole (q : ℚ) : String := toString (round q : ℤ)

/-! ## Canonical server handlers (`cmd/server/main.go`) -/

/-- `getPriceHandler` success message:
`fmt.Sprintf("The price of %s is $%.2f", product.Name, product.Price)`. -/
def priceMsg (name : String) (price : ℚ) : String :=
  "The price of " ++ name ++ " is $" ++ fmtMoney price

/-- `getPriceHandler` from `cmd/server/main.go`. -/
def getPriceHandler (args : HandlerArgs) : HandlerResult :=
  match args with
  | none => .error "no arguments provided"
  | some args =>
    match jlookup args "product_id" with
    | some (JVal.str productID) =>
      match defaultProducts.find? (fun p => idBeq p.id productID) with
      | some product =>
          .ok ⟨false, [GoStr.marshal (JVal.obj
            [("success", JVal.bool true),
             ("product_id", JVal.str (GoStr.lit product.id)),
             ("product_name", JVal.str (GoStr.lit product.name)),
             ("price", JVal.num product.price),
             ("message", JVal.str (GoStr.lit (priceMsg product.name product.price)))])]⟩
      | none =>
          .ok ⟨true, [GoStr.marshal (JVal.obj
            [("success", JVal.bool false),
             ("error", JVal.str (GoStr.lit "Product not found")),
             ("product_id", JVal.str productID)])]⟩
    | _ => .error "product_id is not a string"

/-- The validation pass of `calculateTotalHandler` for one item:
`some msg` is the text of the error-shaped result returned when the
item fails validation, `none` means the item passes.  The checks
follow the source's order: item shape, product id shape, product
existence, quantity shape, integrality (`quantity != float64(int(quantity))`),
positivity (`quantity <= 0`), ceiling (`quantity > 1000`). -/
def itemError (item : JVal) : Option String :=
  match item with
  | JVal.obj kvs =>
    match jlookup kvs "product_id" with
    | some (JVal.str productID) =>
      if defaultProducts.any (fun p => idBeq p.id productID) then
        match jlookup kvs "quantity" with
        | some (JVal.num quantity) =>
          if (goInt quantity : ℚ) ≠ quantity then some "Quantity must be an integer"
          else if quantity ≤ 0 then some "Quantity must be greater than 0"
          else if quantity > 1000 then some "Quantity cannot exceed 1000"
          else none
        | _ => some "Invalid quantity format"
      else some "Product with ID not found"
    | _ => some "Invalid product ID format"
  | _ => some "Invalid item format"

/-- The first validation failure over the items list (the source's
validation loop returns on the first invalid item). -/
def firstError : List JVal → Option String
  | [] => none
  | item :: rest =>
    match itemError item with
    | some e => some e
    | none => firstError rest

/-- The computation pass of `calculateTotalHandler` for one item:
`none` models the unchecked Go type assertions panicking (unreachable
after the validation pass); `some none` is an item whose product id
matches no catalog entry (it contributes nothing — also unreachable
after validation); `some (some (itemTotal, detail))` is the item's
contribution to the total and its detail record. -/
def computeItem (item : JVal) : Option (Option (ℚ × JVal)) :=
  match item with
  | JVal.obj kvs =>
    match jlookup kvs "product_id", jlookup kvs "quantity" with
    | some (JVal.str productID), some (JVal.num quantityF) =>
      let quantity := goInt quantityF
      some (match defaultProducts.find? (fun p => idBeq p.id productID) with
        | some p =>
          some (p.price * (quantity : ℚ),
            JVal.obj [("product_id", JVal.str productID),
                      ("product_name", JVal.str (GoStr.lit p.name)),
                      ("price", JVal.num p.price),
                      ("quantity", JVal.num (quantity : ℚ)),
                      ("item_total", JVal.num (p.price * (quantity : ℚ)))])
        | none => none)
    | _, _ => none
  | _ => none

/-- The computation loop of `calculateTotalHandler`: the running total
and the item detail records, in item order.  `none` models a Go panic
(unreachable after validation). -/
def computeItems : List JVal → Option (ℚ × List JVal)
  | [] => some (0, [])
  | item :: rest =>
    match computeItem item, computeItems rest with
    | some contribution, some (t, ds) =>
      match contribution with
      | some (itemTotal, detail) => some (itemTotal + t, detail :: ds)
      | none => some (t, ds)
    | _, _ => none

/-- `calculateTotalHandler` success message
(`fmt.Sprintf("Total price is $%.2f", total)`). -/
def totalMsg (total : ℚ) : String := "Total price is $" ++ fmtMoney total

/-- `calculateTotalHandler` from `cmd/server/main.go`: validates every
item, then computes the total and details.  A Go `var itemDetails []…`
that stays `nil` marshals as JSON `null`, hence the empty-details case
of the `items` field. -/
def calculateTotalHandler (args : HandlerArgs) : HandlerResult :=
  match args with
  | none => .error "invalid arguments"
  | some args =>
    match jlookup args "items" with
    | none => .error "missing items"
    | some itemsInterface =>
      match itemsInterface with
      | JVal.arr items =>
        match firstError items with
        | some e => .ok ⟨true, [GoStr.lit e]⟩
        | none =>
          match computeItems items with
          | none => .error "panic: interface conversion"
          | some (total, itemDetails) =>
            .ok ⟨false, [GoStr.marshal (JVal.obj
              [("success", JVal.bool true),
               ("total_price", JVal.num total),
               ("items", if itemDetails.isEmpty then JVal.null else JVal.arr itemDetails),
               ("item_count", JVal.num (itemDetails.length : ℚ)),
               ("message", JVal.str (GoStr.lit (totalMsg total)))])]⟩
      | _ => .error "items is not an array"

/-- The canonical discount formula of `cmd/server/main.go`:
`discountedPrice := totalPrice * (discountPercentage / 100)` — the
percentage is the fraction of the original price still paid. -/
def discountedPriceOf (totalPrice discountPercentage : ℚ) : ℚ :=
  totalPrice * (discountPercentage / 100)

/-- `applyDiscountHandler` message from `cmd/server/main.go`. -/
def discountMsg (originalPrice discountPercentage discountedPrice savedAmount : ℚ) : String :=
  "Original price: $" ++ fmtMoney originalPrice ++ ", After " ++
    fmtWhole discountPercentage ++ "% discount: $" ++ fmtMoney discountedPrice ++
    " (You save: $" ++ fmtMoney savedAmount ++ ")"

/-- `applyDiscountHandler` from `cmd/server/main.go` (canonical
variant). -/
def applyDiscountHandler (args : HandlerArgs) : HandlerResult :=
  match args with
  | none => .error "invalid arguments"
  | some args =>
    match jlookup args "total_price" with
    | some (JVal.num totalPrice) =>
      match jlookup args "discount_percentage" with
      | some (JVal.num discountPercentage) =>
        let discountedPrice := discountedPriceOf totalPrice discountPercentage
        let originalPrice := totalPrice
        let savedAmount := originalPrice - discountedPrice
        .ok ⟨false, [GoStr.marshal (JVal.obj
          [("success", JVal.bool true),
           ("original_price", JVal.num originalPrice),
           ("discount_percentage", JVal.num discountPercentage),
           ("discounted_price", JVal.num discountedPrice),
           ("saved_amount", JVal.num savedAmount),
           ("message", JVal.str (GoStr.lit (discountMsg originalPrice
             discountPercentage discountedPrice savedAmount)))])]⟩
      | _ => .error "missing discount_percentage"
    | _ => .error "missing total_price"

/-- The `help` tool's fixed text (`helpHandler` in
`cmd/server/main.go`); its content is immaterial to every claim. -/
def helpText : String := "Available tools: get_price, calculate_total, apply_discount"

/-- `helpHandler` from `cmd/server/main.go`. -/
def helpHandler (_args : HandlerArgs) : HandlerResult :=
  .ok ⟨false, [GoStr.lit helpText]⟩

/-! ## Observation helpers -/

/-- The structured payload of a `CallToolResult` whose single content
item is a marshalled JSON object (the shape every structured handler
produces). -/
def CallToolResult.payload : CallToolResult → Option (List (String × JVal))
  | ⟨_, [GoStr.marshal (JVal.obj kvs)]⟩ => some kvs
  | _ => none

/-- A handler call that returned a non-error result with nil Go
error. -/
def callOk : HandlerResult → Bool
  | .ok r => !r.isError
  | .error _ => false

/-- A handler call that returned an error-shaped result
(`IsError: true`) with nil Go error. -/
def callIsError : HandlerResult → Bool
  | .ok r => r.isError
  | .error _ => false

/-- A field of the structured payload of a successful handler call. -/
def callField (x : HandlerResult) (k : String) : Option JVal :=
  match x with
  | .ok r => jlookup (r.payload.getD []) k
  | .error _ => none

/-! ## Legacy server variant (`server/server.go`) -/

namespace Legacy

/-- The legacy discount formula of `server/server.go`:
`discount := totalPrice * (discountPercentage / 100);
discountedPrice := totalPrice - discount` — the percentage is the
fraction subtracted, the opposite sign convention from the canonical
variant. -/
def discountedPriceOf (totalPrice discountPercentage : ℚ) : ℚ :=
  totalPrice - totalPrice * (discountPercentage / 100)

/-- The legacy handler's message
(`fmt.Sprintf("Discounted price is $%.2f", discountedPrice)`). -/
def discountMsg (discountedPrice : ℚ) : String :=
  "Discounted price is $" ++ fmtMoney discountedPrice

/-- `applyDiscountHandler` from `server/server.go` (minimal legacy
variant: plain-text content, no structured payload). -/
def applyDiscountHandler (args : HandlerArgs) : HandlerResult :=
  match args with
  | none => .error "invalid arguments"
  | some args =>
    match jlookup args "total_price" with
    | some (JVal.num totalPrice) =>
      match jlookup args "discount_percentage" with
      | some (JVal.num discountPercentage) =>
        .ok ⟨false, [GoStr.lit (discountMsg (discountedPriceOf totalPrice discountPercentage))]⟩
      | _ => .error "missing discount_percentage"
    | _ => .error "missing total_price"

end Legacy

/-! ## Client and orchestrator (`cmd/client/main.go`) -/

/-- The `initialize` request envelope built by `MCPServer.Initialize`
(the `id` is the literal `1` in the source, fixed for every call). -/
def initRequest : JVal :=
  JVal.obj
    [("jsonrpc", JVal.str (GoStr.lit "2.0")),
     ("id", JVal.num 1),
     ("method", JVal.str (GoStr.lit "initialize")),
     ("params", JVal.obj
       [("protocolVersion", JVal.str (GoStr.lit "2024-11-05")),
        ("capabilities", JVal.obj []),
        ("clientInfo", JVal.obj
          [("name", JVal.str (GoStr.lit "interactive-client")),
           ("version", JVal.str (GoStr.lit "1.0.0"))])])]

/-- The `tools/list` request envelope built by `MCPServer.ListTools`
(the `id` is the literal `2` in the source, fixed for every call). -/
def listToolsRequest : JVal :=
  JVal.obj
    [("jsonrpc", JVal.str (GoStr.lit "2.0")),
     ("id", JVal.num 2),
     ("method", JVal.str (GoStr.lit "tools/list"))]

/-- The `tools/call` request envelope built by `MCPServer.CallTool`
(the `id` is the literal `3` in the source, fixed for every call,
whatever the tool name and arguments). -/
def toolRequest (name : String) (arguments : List (String × JVal)) : JVal :=
  JVal.obj
    [("jsonrpc", JVal.str (GoStr.lit "2.0")),
     ("id", JVal.num 3),
     ("method", JVal.str (GoStr.lit "tools/call")),
     ("params", JVal.obj
       [("name", JVal.str (GoStr.lit name)),
        ("arguments", JVal.obj arguments)])]

/-- `json.Unmarshal` of a Go string into `map[string]interface{}`:
succeeds exactly when the string is the marshalling of a JSON
object. -/
def unmarshalObj : GoStr → Option (List (String × JVal))
  | GoStr.marshal (JVal.obj kvs) => some kvs
  | _ => none

/-- The content scan inside `extractContentFromResponse`: the first
content item that is an object carrying a string `text` field. -/
def firstText : List JVal → Option GoStr
  | [] => none
  | JVal.obj kvs :: rest =>
    match jlookup kvs "text" with
    | some (JVal.str s) => some s
    | _ => firstText rest
  | _ :: rest => firstText rest

/-- `extractContentFromResponse` from `cmd/client/main.go`: unwrap
`result.content[i].text` from a raw reply line; on any parse or shape
failure, return the raw line unchanged. -/
def extractContentFromResponse (response : GoStr) : GoStr :=
  match unmarshalObj response with
  | none => response
  | some result =>
    match jlookup result "result" with
    | some (JVal.obj resultObj) =>
      match jlookup resultObj "content" with
      | some (JVal.arr contentArray) =>
        match firstText contentArray with
        | some text => text
        | none => response
      | _ => response
    | _ => response

/-- `parseStructuredResponse` from `cmd/client/main.go`: unwrap the
content text and attempt a JSON decode; when the text is not a JSON
object, synthesize `{success: true, message: <raw text>}`.  The Go
function's `error` return is nil on every path. -/
def parseStructuredResponse (response : GoStr) :
    Except String (List (String × JVal)) :=
  let content := extractContentFromResponse response
  match unmarshalObj content with
  | some structuredData => .ok structuredData
  | none => .ok [("success", JVal.bool true), ("message", JVal.str content)]

/-- The tool dispatch of the canonical server (`main` in
`cmd/server/main.go` registers `help`, `get_price`, `calculate_total`
and `apply_discount`; per the spec's §4.1, an unknown `params.name`
yields an error-shaped CallToolResult — that lookup lives in the
mcp-go library, outside this repository's sources). -/
def serverDispatch (name : String) (args : HandlerArgs) : HandlerResult :=
  if name = "help" then helpHandler args
  else if name = "get_price" then getPriceHandler args
  else if name = "calculate_total" then calculateTotalHandler args
  else if name = "apply_discount" then applyDiscountHandler args
  else .ok ⟨true, [GoStr.lit ("tool " ++ name ++ " not found")]⟩

/-- Modelled from the spec: the wire-level response envelope for a
`tools/call` request — `{"jsonrpc","id","result":{"content":[{"type":
"text","text":…}],"isError"?}}`.  The marshalling is performed by the
mcp-go library (not part of this repository's sources); the spec's §6
fixes the shape. -/
def wrapCallResult (r : CallToolResult) : GoStr :=
  GoStr.marshal (JVal.obj
    [("jsonrpc", JVal.str (GoStr.lit "2.0")),
     ("id", JVal.num 3),
     ("result", JVal.obj
       ([("content", JVal.arr (r.content.map fun t =>
           JVal.obj [("type", JVal.str (GoStr.lit "text")),
                     ("text", JVal.str t)]))] ++
        (if r.isError then [("isError", JVal.bool true)] else [])))])

/-- The raw reply line `MCPServer.CallTool` hands back for one
`tools/call`: the server dispatches the named tool and the runtime
wraps its result (a handler's non-nil Go `error` is delivered as an
error-shaped CallToolResult, per the spec's §4.1; the stdio transport
carries lines verbatim, so it is the identity here). -/
def callToolReply (name : String) (args : HandlerArgs) : GoStr :=
  match serverDispatch name args with
  | .ok r => wrapCallResult r
  | .error msg => wrapCallResult ⟨true, [GoStr.lit msg]⟩

/-- The orchestrator's per-turn chaining state:
`lastStructuredResult` in `main` of `cmd/client/main.go` (`nil` at the
start of each turn). -/
structure ChainState where
  lastStructuredResult : Option (List (String × JVal))

/-- The propagation rule in `main` of `cmd/client/main.go`: when the
invocation is `apply_discount`, a prior structured result exists, and
it carries a numeric `total_price` field, overwrite the invocation's
own `total_price` argument with that value. -/
def propagateTotalPrice (st : ChainState) (name : String)
    (arguments : List (String × JVal)) : List (String × JVal) :=
  if name = "apply_discount" then
    match st.lastStructuredResult with
    | some lastResult =>
      match jlookup lastResult "total_price" with
      | some (JVal.num price) => jupsert arguments "total_price" (JVal.num price)
      | _ => arguments
    | none => arguments
  else arguments

/-- One step of the orchestrator's tool-call loop: apply the
propagation rule, dispatch, decode the reply, and replace the chain
state with the decoded structured result (on a decode failure the Go
loop `continue`s with the state unchanged). -/
def orchestratorStep (st : ChainState) (name : String)
    (arguments : List (String × JVal)) :
    ChainState × (List (String × JVal) × Option (List (String × JVal))) :=
  let dispatched := propagateTotalPrice st name arguments
  let response := callToolReply name (some dispatched)
  match parseStructuredResponse response with
  | .ok structuredResult => (⟨some structuredResult⟩, (dispatched, some structuredResult))
  | .error _ => (st, (dispatched, none))

/-- The orchestrator's loop over one turn's invocations, returning the
final chain state and each step's dispatched arguments and decoded
structured result. -/
def orchestratorRun (st : ChainState) :
    List (String × List (String × JVal)) →
    ChainState × List (List (String × JVal) × Option (List (String × JVal)))
  | [] => (st, [])
  | (name, arguments) :: rest =>
    let (st', outcome) := orchestratorStep st name arguments
    let (stFinal, outcomes) := orchestratorRun st' rest
    (stFinal, outcome :: outcomes)

/-- Top-level field access on a request envelope (an object-shaped
`JVal`). -/
def requestField (v : JVal) (k : String) : Option JVal :=
  match v with
  | JVal.obj kvs => jlookup kvs k
  | _ => none

/-- A concrete malformed (truncated-JSON) reply line, as a child
process could emit it. -/
def badResponseLine : GoStr :=
  GoStr.lit "\x7b\"jsonrpc\": \"2.0\", \"id\": 3, \"resu"

/-- Whether the client decode step reported a fault through its Go
`error` return. -/
def isProtocolFault : Except String (List (String × JVal)) → Bool
  | .error _ => true
  | .ok _ => false

/-! ## Claims -/

/-- C10: every request the client sends carries a fixed id determined
only by the method — `initialize` always id 1, `tools/list` always
id 2, and every `tools/call` id 3, whatever the tool name and
arguments — so ids do not uniquely identify requests within a
session. -/
theorem request_ids_fixed_per_method :
    requestField initRequest "id" = some (JVal.num 1) ∧
    requestField listToolsRequest "id" = some (JVal.num 2) ∧
    ∀ (name : String) (arguments : List (String × JVal)),
      requestField (toolRequest name arguments) "id" = some (JVal.num 3) := by
  refine ⟨?_, ?_, fun name arguments => ?_⟩ <;>
    simp [requestField, initRequest, listToolsRequest, toolRequest, jlookup]

/-- C2: for every numeric `totalPrice` and `retainPercentage`
argument, the canonical `apply_discount` handler returns
`discounted_price = totalPrice * retainPercentage / 100` and
`saved_amount = totalPrice - discounted_price` (the percentage is the
fraction of the original price still paid); in particular
`total_price=2000`, `discount_percentage=80` yields
`discounted_price=1600.00` and `saved_amount=400.00`. -/
theorem apply_discount_retains_percentage :
    (∀ t p : ℚ,
      callOk (applyDiscountHandler (some
        [("total_price", JVal.num t), ("discount_percentage", JVal.num p)])) = true ∧
      callField (applyDiscountHandler (some
        [("total_price", JVal.num t), ("discount_percentage", JVal.num p)]))
        "discounted_price" = some (JVal.num (t * p / 100)) ∧
      callField (applyDiscountHandler (some
        [("total_price", JVal.num t), ("discount_percentage", JVal.num p)]))
        "saved_amount" = some (JVal.num (t - t * p / 100))) ∧
    callField (applyDiscountHandler (some
        [("total_price", JVal.num 2000), ("discount_percentage", JVal.num 80)]))
        "discounted_price" = some (JVal.num 1600) ∧
    callField (applyDiscountHandler (some
        [("total_price", JVal.num 2000), ("discount_percentage", JVal.num 80)]))
        "saved_amount" = some (JVal.num 400) := by
  refine ⟨fun t p => ⟨?_, ?_, ?_⟩, ?_, ?_⟩ <;>
    simp [applyDiscountHandler, discountedPriceOf, callOk, callField,
      CallToolResult.payload, jlookup, mul_div_assoc] <;>
    norm_num

/-- C9: `calculate_total` on an empty items array returns a non-error
result with `success=true`, `total_price=0`, `item_count=0` and an
absent (`null`-marshalled) items detail list, rather than an
error-shaped result. -/
theorem calculate_total_empty_items_success :
    callOk (calculateTotalHandler (some [("items", JVal.arr [])])) = true ∧
    callField (calculateTotalHandler (some [("items", JVal.arr [])]))
      "success" = some (JVal.bool true) ∧
    callField (calculateTotalHandler (some [("items", JVal.arr [])]))
      "total_price" = some (JVal.num 0) ∧
    callField (calculateTotalHandler (some [("items", JVal.arr [])]))
      "item_count" = some (JVal.num 0) ∧
    callField (calculateTotalHandler (some [("items", JVal.arr [])]))
      "items" = some JVal.null := by
  refine ⟨?_, ?_, ?_, ?_, ?_⟩ <;>
    simp [calculateTotalHandler, firstError, computeItems, callOk, callField,
      CallToolResult.payload, jlookup]

/-- C6: for every reply line whose unwrapped content text is not valid
JSON (a plain `lit` string), the orchestrator's decode step returns
the structured record `{success: true, message: <that raw text>}` with
a nil error, and so does not fail the turn. -/
theorem parse_synthesizes_success_on_nonjson_content :
    ∀ (response : GoStr) (s : String),
      extractContentFromResponse response = GoStr.lit s →
      parseStructuredResponse response =
        .ok [("success", JVal.bool true), ("message", JVal.str (GoStr.lit s))] := by
  intro response s h
  simp [parseStructuredResponse, h, unmarshalObj]

/-- Witness for C6 at a concrete reply line whose content text is the
non-JSON string `"oops"`. -/
theorem parse_synthesizes_success_on_nonjson_content_witness :
    extractContentFromResponse (GoStr.lit "oops") = GoStr.lit "oops" ∧
    parseStructuredResponse (GoStr.lit "oops") =
      .ok [("success", JVal.bool true), ("message", JVal.str (GoStr.lit "oops"))] :=
  ⟨rfl, parse_synthesizes_success_on_nonjson_content (GoStr.lit "oops") "oops" rfl⟩

/-- C7 (counterexample): on a concrete truncated-JSON reply line the
client's decode step does NOT surface a protocol fault — it returns a
nil Go error and a success-shaped record (`success: true`), so the
claim that a protocol fault is surfaced to the caller is false (only
the raw-text preservation and no-crash parts hold). -/
theorem parse_malformed_line_no_fault_surfaced :
    isProtocolFault (parseStructuredResponse badResponseLine) = false ∧
    parseStructuredResponse badResponseLine =
      .ok [("success", JVal.bool true),
           ("message", JVal.str badResponseLine)] := by
  constructor <;> rfl

/-- C7 (amended): for every malformed (non-JSON) response line
received from the child, the parent decodes it without crashing and
returns the synthesized success-shaped record
`{success: true, message: <raw line>}` — the offending raw text is
preserved in the `message` field, and no protocol fault is surfaced
(the decode's Go error return is nil). -/
theorem parse_malformed_line_synthesizes_success :
    ∀ s : String,
      parseStructuredResponse (GoStr.lit s) =
        .ok [("success", JVal.bool true), ("message", JVal.str (GoStr.lit s))] := by
  intro s
  rfl

/-- Helper: for a positive total and a percentage other than 50, the
legacy (subtract) and canonical (retain) discount formulas produce
different discounted prices. -/
lemma legacy_ne_canonical (t p : ℚ) (ht : 0 < t) (hp : p ≠ 50) :
    Legacy.discountedPriceOf t p ≠ discountedPriceOf t p := by
  unfold Legacy.discountedPriceOf discountedPriceOf
  intro h
  apply hp
  have ht2 : t ≠ 0 := ne_of_gt ht
  have h2 : t * (100 - 2 * p) = 0 := by field_simp at h; ring_nf; ring_nf at h; linarith
  rcases mul_eq_zero.mp h2 with h1 | h3
  · exact absurd h1 ht2
  · linarith

/-- C5: the two `apply_discount` handler variants use opposite sign
conventions — on the same arguments the legacy variant
(`server/server.go`) reports `totalPrice - totalPrice *
discountPercentage / 100` while the canonical variant
(`cmd/server/main.go`) reports `totalPrice * discountPercentage /
100` — so for every positive total and percentage other than 50 the
two discounted prices differ. -/
theorem discount_variants_opposite_conventions :
    (∀ t p : ℚ,
      Legacy.applyDiscountHandler (some
        [("total_price", JVal.num t), ("discount_percentage", JVal.num p)]) =
        .ok ⟨false, [GoStr.lit (Legacy.discountMsg (t - t * p / 100))]⟩) ∧
    (∀ t p : ℚ,
      callField (applyDiscountHandler (some
        [("total_price", JVal.num t), ("discount_percentage", JVal.num p)]))
        "discounted_price" = some (JVal.num (t * p / 100))) ∧
    ∀ t p : ℚ, 0 < t → p ≠ 50 →
      Legacy.discountedPriceOf t p ≠ discountedPriceOf t p := by
  refine ⟨fun t p => ?_, fun t p => ?_, legacy_ne_canonical⟩
  · simp [Legacy.applyDiscountHandler, Legacy.discountedPriceOf, jlookup,
      mul_div_assoc]
  · simp [applyDiscountHandler, discountedPriceOf, callField,
      CallToolResult.payload, jlookup, mul_div_assoc]

/-- Witness for C5 at `totalPrice=100`, `discountPercentage=30`: the
legacy variant reports 70, the canonical variant 30. -/
theorem discount_variants_opposite_conventions_witness :
    Legacy.discountedPriceOf 100 30 ≠ discountedPriceOf 100 30 :=
  discount_variants_opposite_conventions.2.2 100 30 (by norm_num) (by norm_num)

/-- C8: for every `product_id` string matching no catalog product,
`get_price` returns an error-shaped result (`isError=true`) whose
payload has `success=false` and echoes the offending `product_id`. -/
theorem get_price_unknown_id_error :
    ∀ pid : GoStr,
      (∀ p ∈ defaultProducts, idBeq p.id pid = false) →
      callIsError (getPriceHandler (some [("product_id", JVal.str pid)])) = true ∧
      callField (getPriceHandler (some [("product_id", JVal.str pid)]))
        "success" = some (JVal.bool false) ∧
      callField (getPriceHandler (some [("product_id", JVal.str pid)]))
        "product_id" = some (JVal.str pid) := by
  intro pid h
  have hfind : defaultProducts.find? (fun p => idBeq p.id pid) = none :=
    List.find?_eq_none.mpr (by intro p hp; simp [h p hp])
  refine ⟨?_, ?_, ?_⟩ <;>
    simp [getPriceHandler, hfind, callIsError, callField,
      CallToolResult.payload, jlookup]

/-- Witness for C8 at the unknown id `"99"`. -/
theorem get_price_unknown_id_error_witness :
    (∀ p ∈ defaultProducts, idBeq p.id (GoStr.lit "99") = false) ∧
    callIsError (getPriceHandler
      (some [("product_id", JVal.str (GoStr.lit "99"))])) = true ∧
    callField (getPriceHandler (some [("product_id", JVal.str (GoStr.lit "99"))]))
      "success" = some (JVal.bool false) ∧
    callField (getPriceHandler (some [("product_id", JVal.str (GoStr.lit "99"))]))
      "product_id" = some (JVal.str (GoStr.lit "99")) := by
  have h : ∀ p ∈ defaultProducts, idBeq p.id (GoStr.lit "99") = false := by decide
  exact ⟨h, get_price_unknown_id_error (GoStr.lit "99") h⟩

/-! ## Valid items lists -/

/-- An items-list entry `{product_id: pid, quantity: n}` with an
integer quantity, as the JSON decode of the request delivers it to the
handler (a JSON integer decodes to a whole `float64`). -/
def mkItem (pid : GoStr) (n : ℤ) : JVal :=
  JVal.obj [("product_id", JVal.str pid), ("quantity", JVal.num (n : ℚ))]

/-- The arguments object `{items: [...]}` built from entries. -/
def mkItemsArgs (entries : List (GoStr × ℤ)) : List (String × JVal) :=
  [("items", JVal.arr (entries.map fun e => mkItem e.1 e.2))]

/-- The catalog price for an argument product id (first match in
`defaultProducts`, the order in which the handlers scan). -/
def catalogPrice (pid : GoStr) : Option ℚ :=
  (defaultProducts.find? fun p => idBeq p.id pid).map Product.price

/-- Specification-side total: the sum over the entries of the catalog
price times the quantity. -/
def specTotal (entries : List (GoStr × ℤ)) : ℚ :=
  entries.foldr (fun e acc => ((catalogPrice e.1).getD 0) * (e.2 : ℚ) + acc) 0

/-- An entry whose product id matches a catalog product and whose
integer quantity lies in `[1, 1000]`. -/
def validEntry (e : GoStr × ℤ) : Bool :=
  (defaultProducts.any fun p => idBeq p.id e.1) &&
    decide (1 ≤ e.2) && decide (e.2 ≤ 1000)

/-- Go truncation agrees with the integer on integral rationals. -/
lemma goInt_intCast (n : ℤ) : goInt (n : ℚ) = n := by
  simp [goInt, Rat.intCast_num, Rat.intCast_den, Int.tdiv_one]

/-- A valid entry passes the handler's validation checks. -/
lemma itemError_mkItem {e : GoStr × ℤ} (h : validEntry e = true) :
    itemError (mkItem e.1 e.2) = none := by
  rw [validEntry, Bool.and_eq_true, Bool.and_eq_true] at h
  obtain ⟨⟨hany, h1⟩, h2⟩ := h
  rw [decide_eq_true_eq] at h1 h2
  have hni : (goInt ((e.2 : ℚ)) : ℚ) = (e.2 : ℚ) := by rw [goInt_intCast]
  have hpos : ¬((e.2 : ℚ) ≤ 0) := by rw [Int.cast_nonpos]; omega
  have hle : ¬((e.2 : ℚ) > 1000) := by
    rw [not_lt]; exact_mod_cast h2
  simp [itemError, mkItem, jlookup, hany, hni, hpos, hle]

/-- A list of valid entries passes the whole validation pass. -/
lemma firstError_map_eq_none {entries : List (GoStr × ℤ)}
    (h : ∀ e ∈ entries, validEntry e = true) :
    firstError (entries.map fun e => mkItem e.1 e.2) = none := by
  induction entries with
  | nil => rfl
  | cons hd tl ih =>
    have hhd := itemError_mkItem (h hd (List.mem_cons_self hd tl))
    simp only [List.map_cons, firstError, hhd]
    exact ih fun e he => h e (List.mem_cons_of_mem hd he)

/-- The compute pass on one valid-shaped entry whose product is
`p`. -/
lemma computeItem_mkItem {e : GoStr × ℤ} {p : Product}
    (hp : defaultProducts.find? (fun q => idBeq q.id e.1) = some p) :
    computeItem (mkItem e.1 e.2) =
      some (some (p.price * (e.2 : ℚ),
        JVal.obj [("product_id", JVal.str e.1),
                  ("product_name", JVal.str (GoStr.lit p.name)),
                  ("price", JVal.num p.price),
                  ("quantity", JVal.num (e.2 : ℚ)),
                  ("item_total", JVal.num (p.price * (e.2 : ℚ)))])) := by
  simp [computeItem, mkItem, jlookup, hp, goInt_intCast]

/-- The compute pass over valid entries yields the specification-side
total and one detail record per entry. -/
lemma computeItems_map {entries : List (GoStr × ℤ)}
    (h : ∀ e ∈ entries, validEntry e = true) :
    ∃ ds, computeItems (entries.map fun e => mkItem e.1 e.2) =
      some (specTotal entries, ds) ∧ ds.length = entries.length := by
  induction entries with
  | nil => exact ⟨[], rfl, rfl⟩
  | cons hd tl ih =>
    obtain ⟨ds, hds, hlen⟩ := ih fun e he => h e (List.mem_cons_of_mem hd he)
    have hv := h hd (List.mem_cons_self hd tl)
    rw [validEntry, Bool.and_eq_true, Bool.and_eq_true] at hv
    have hany := hv.1.1
    obtain ⟨p, hp⟩ := Option.isSome_iff_exists.mp
      (List.find?_isSome.mpr (by simpa [List.any_eq_true] using hany))
    have hcp : (catalogPrice hd.1).getD 0 = p.price := by
      simp [catalogPrice, hp]
    refine ⟨JVal.obj [("product_id", JVal.str hd.1),
                  ("product_name", JVal.str (GoStr.lit p.name)),
                  ("price", JVal.num p.price),
                  ("quantity", JVal.num (hd.2 : ℚ)),
                  ("item_total", JVal.num (p.price * (hd.2 : ℚ)))] :: ds, ?_, ?_⟩
    · simp only [List.map_cons, computeItems, computeItem_mkItem hp, hds,
        specTotal, List.foldr_cons]
      rw [hcp]
    · simpa using hlen

/-- The canonical `calculate_total` handler on a list of valid
entries: a non-error success result whose `total_price` is the
specification-side sum and whose `item_count` is the number of
entries. -/
lemma calculateTotal_valid (entries : List (GoStr × ℤ))
    (h : ∀ e ∈ entries, validEntry e = true) :
    callOk (calculateTotalHandler (some (mkItemsArgs entries))) = true ∧
    callField (calculateTotalHandler (some (mkItemsArgs entries))) "success"
      = some (JVal.bool true) ∧
    callField (calculateTotalHandler (some (mkItemsArgs entries))) "total_price"
      = some (JVal.num (specTotal entries)) ∧
    callField (calculateTotalHandler (some (mkItemsArgs entries))) "item_count"
      = some (JVal.num (entries.length : ℚ)) := by
  obtain ⟨ds, hds, hlen⟩ := computeItems_map h
  have hfe := firstError_map_eq_none h
  refine ⟨?_, ?_, ?_, ?_⟩ <;>
    simp [calculateTotalHandler, mkItemsArgs, jlookup, hfe, hds, hlen,
      callOk, callField, CallToolResult.payload]

/-- C3: for every non-empty items list whose entries each carry a
catalog product id and an integer quantity in `[1, 1000]`,
`calculate_total` returns success with `total_price` equal to the sum
of catalog price times quantity over the entries and `item_count`
equal to the number of entries. -/
theorem calculate_total_valid_items :
    ∀ entries : List (GoStr × ℤ),
      entries ≠ [] →
      (∀ e ∈ entries, validEntry e = true) →
      callOk (calculateTotalHandler (some (mkItemsArgs entries))) = true ∧
      callField (calculateTotalHandler (some (mkItemsArgs entries))) "success"
        = some (JVal.bool true) ∧
      callField (calculateTotalHandler (some (mkItemsArgs entries))) "total_price"
        = some (JVal.num (specTotal entries)) ∧
      callField (calculateTotalHandler (some (mkItemsArgs entries))) "item_count"
        = some (JVal.num (entries.length : ℚ)) :=
  fun entries _ h => calculateTotal_valid entries h

/-- Witness for C3 at the two-entry list of the chaining scenario:
5 laptops and 30 smartphones total `specTotal = 20000` with
`item_count = 2`. -/
theorem calculate_total_valid_items_witness :
    ([(GoStr.lit "1", 5), (GoStr.lit "2", 30)] ≠ ([] : List (GoStr × ℤ))) ∧
    (∀ e ∈ [((GoStr.lit "1" : GoStr), (5 : ℤ)), (GoStr.lit "2", 30)],
      validEntry e = true) ∧
    callField (calculateTotalHandler
        (some (mkItemsArgs [(GoStr.lit "1", 5), (GoStr.lit "2", 30)])))
      "total_price" = some (JVal.num 20000) ∧
    callField (calculateTotalHandler
        (some (mkItemsArgs [(GoStr.lit "1", 5), (GoStr.lit "2", 30)])))
      "item_count" = some (JVal.num 2) := by
  have hne : ([(GoStr.lit "1", 5), (GoStr.lit "2", 30)] ≠ ([] : List (GoStr × ℤ))) := by
    simp
  have h : ∀ e ∈ [((GoStr.lit "1" : GoStr), (5 : ℤ)), (GoStr.lit "2", 30)],
      validEntry e = true := by decide
  have hmain := calculate_total_valid_items
    [(GoStr.lit "1", 5), (GoStr.lit "2", 30)] hne h
  refine ⟨hne, h, ?_, ?_⟩
  · rw [hmain.2.2.1]
    simp [specTotal, catalogPrice, defaultProducts, idBeq, List.find?]
    norm_num
  · rw [hmain.2.2.2]
    norm_num

/-- A bad quantity (zero, above the ceiling, or non-integral) makes
the validation of its item fail. -/
lemma itemError_obj_bad {kvs : List (String × JVal)} {q : ℚ}
    (hql : jlookup kvs "quantity" = some (JVal.num q))
    (hbad : q = 0 ∨ 1000 < q ∨ (goInt q : ℚ) ≠ q) :
    itemError (JVal.obj kvs) ≠ none := by
  simp only [itemError]
  split
  · next pid heq =>
    by_cases hex : (defaultProducts.any fun p => idBeq p.id pid) = true
    · rw [if_pos hex, hql]
      rcases hbad with h0 | hgt | hni
      · subst h0
        have hz : goInt 0 = 0 := by simpa using goInt_intCast 0
        simp [hz]
      · by_cases h1 : (goInt q : ℚ) ≠ q
        · simp [h1]
        · have h1' : (goInt q : ℚ) = q := not_not.mp h1
          by_cases h2 : q ≤ 0
          · simp [h1', h2]
          · simp [h1', h2, hgt]
      · simp [hni]
    · rw [if_neg hex]
      simp
  · next heq => simp

/-- An invalid item anywhere in the list makes the whole validation
pass fail. -/
lemma firstError_ne_none {items : List JVal} {item : JVal}
    (hmem : item ∈ items) (h : itemError item ≠ none) :
    firstError items ≠ none := by
  induction items with
  | nil => cases hmem
  | cons hd tl ih =>
    rcases List.mem_cons.mp hmem with rfl | hmem2
    · simp only [firstError]
      cases hh : itemError item with
      | some e => simp
      | none => exact absurd hh h
    · simp only [firstError]
      cases hh : itemError hd with
      | some e => simp
      | none => exact ih hmem2

/-- C4: `calculate_total` returns an error-shaped result whenever some
item's numeric quantity is 0, exceeds 1000, or is not an integer, and
accepts quantity 1 and quantity 1000 with a valid product id. -/
theorem calculate_total_quantity_validation :
    (∀ (items : List JVal) (kvs : List (String × JVal)) (q : ℚ),
      JVal.obj kvs ∈ items →
      jlookup kvs "quantity" = some (JVal.num q) →
      (q = 0 ∨ 1000 < q ∨ (goInt q : ℚ) ≠ q) →
      callIsError (calculateTotalHandler (some [("items", JVal.arr items)])) = true) ∧
    callOk (calculateTotalHandler (some (mkItemsArgs [(GoStr.lit "1", 1)]))) = true ∧
    callOk (calculateTotalHandler (some (mkItemsArgs [(GoStr.lit "1", 1000)]))) = true := by
  refine ⟨?_, ?_, ?_⟩
  · intro items kvs q hmem hql hbad
    have h1 := itemError_obj_bad hql hbad
    have h2 := firstError_ne_none hmem h1
    rcases Option.ne_none_iff_exists'.mp h2 with ⟨e, he⟩
    simp [calculateTotalHandler, jlookup, he, callIsError]
  · exact (calculateTotal_valid _ (by decide)).1
  · exact (calculateTotal_valid _ (by decide)).1

/-- Witness for C4 at quantity 0 on product `"1"`. -/
theorem calculate_total_quantity_validation_witness :
    callIsError (calculateTotalHandler (some [("items", JVal.arr
      [JVal.obj [("product_id", JVal.str (GoStr.lit "1")),
                 ("quantity", JVal.num 0)]])])) = true := by
  refine calculate_total_quantity_validation.1 _
    [("product_id", JVal.str (GoStr.lit "1")), ("quantity", JVal.num 0)] 0
    (by simp) ?_ (Or.inl rfl)
  simp [jlookup]

/-! ## The chaining scenario -/

/-- Invocation 1 of the chaining scenario:
`calculate_total({items: [{product_id:"1",quantity:5},
{product_id:"2",quantity:30}]})`. -/
def chainArgs1 : List (String × JVal) :=
  [("items", JVal.arr
    [JVal.obj [("product_id", JVal.str (GoStr.lit "1")), ("quantity", JVal.num 5)],
     JVal.obj [("product_id", JVal.str (GoStr.lit "2")), ("quantity", JVal.num 30)]])]

/-- Invocation 2 of the chaining scenario:
`apply_discount({discount_percentage: 30})`, with no `total_price`
argument. -/
def chainArgs2 : List (String × JVal) :=
  [("discount_percentage", JVal.num 30)]

/-- The orchestrator's run of the two-invocation turn, from an empty
chain state. -/
def chainRun :
    ChainState × List (List (String × JVal) × Option (List (String × JVal))) :=
  orchestratorRun ⟨none⟩
    [("calculate_total", chainArgs1), ("apply_discount", chainArgs2)]

/-- C1: in the chaining scenario, invocation 1 yields a structured
result with `total_price = 20000`; the orchestrator then overwrites
invocation 2's `total_price` argument with that value before dispatch
(visible in the dispatched-arguments trace), and the turn's final
structured result has `discounted_price = 6000`. -/
theorem chain_propagates_total_price :
    (orchestratorStep ⟨none⟩ "calculate_total" chainArgs1).1.lastStructuredResult.bind
        (fun m => jlookup m "total_price") = some (JVal.num 20000) ∧
    chainRun.2.map Prod.fst =
      [chainArgs1,
       [("discount_percentage", JVal.num 30), ("total_price", JVal.num 20000)]] ∧
    chainRun.1.lastStructuredResult.bind
        (fun m => jlookup m "discounted_price") = some (JVal.num 6000) := by
  have h5 : goInt (5 : ℚ) = 5 := by simpa using goInt_intCast 5
  have h30 : goInt (30 : ℚ) = 30 := by simpa using goInt_intCast 30
  have hn5 : ¬((5 : ℚ) ≤ 0) := by norm_num
  have hn30 : ¬((30 : ℚ) ≤ 0) := by norm_num
  have hg5 : ¬((5 : ℚ) > 1000) := by norm_num
  have hg30 : ¬((30 : ℚ) > 1000) := by norm_num
  refine ⟨?_, ?_, ?_⟩ <;>
    simp [chainRun, chainArgs1, chainArgs2, orchestratorRun, orchestratorStep,
      propagateTotalPrice, jupsert, callToolReply, serverDispatch, helpHandler,
      getPriceHandler, calculateTotalHandler, applyDiscountHandler,
      discountedPriceOf, wrapCallResult, parseStructuredResponse,
      extractContentFromResponse, unmarshalObj, firstText, jlookup, firstError,
      itemError, computeItems, computeItem, defaultProducts, idBeq,
      h5, h30, hn5, hn30, hg5, hg30] <;>
    norm_num

end MCPStore
